import Mathlib

/-!
Verification of the risk-scoring and tiering core of the banking
delinquency analysis repository (src/eda_analysis.py, class
BankingDelinquencyEDA, method calculate_risk_score).

The method computes, per row of the dataframe,

  risk_score = (missed_payments / 6.0) * 0.30
             + credit_utilization * 0.25
             + ((850 - credit_score) / 850.0) * 0.25
             + debt_to_income_ratio * 0.20

and then assigns

  risk_tier = pd.cut(risk_score, bins=[0, 0.30, 0.70, 1.0],
                     labels=[LOW, MEDIUM, HIGH])

pd.cut with an explicit bin list and the default right=True places a
value v in the label of the half-open interval (lo, hi] between two
consecutive bin edges; a value equal to the first edge (0) or outside
every interval gets no label (NaN).  We model row values as rationals,
a NaN tier as none, and (for the null-propagation claims) a missing
raw field as an Option that propagates through the arithmetic exactly
as pandas NaN does in this formula.
-/

/-- One row of the delinquency_prediction table, restricted to the
numeric columns the spec names (section 3).  categorical columns are
irrelevant to the scoring core and omitted. -/
structure CustomerRecord where
  customer_id : Nat
  income : ℚ
  credit_score : ℚ
  credit_utilization : ℚ
  missed_payments : ℚ
  debt_to_income_ratio : ℚ
  deriving Repr, DecidableEq

/-- The risk-score arithmetic of calculate_risk_score
(src/eda_analysis.py lines 69-74), transcribed term by term. -/
def compute_risk_score (r : CustomerRecord) : ℚ :=
  (r.missed_payments / 6.0) * 0.30 +
  r.credit_utilization * 0.25 +
  ((850 - r.credit_score) / 850.0) * 0.25 +
  r.debt_to_income_ratio * 0.20

/-- Modelled from the spec: the formula block of section 4.1 of the
spec, written from the words of the spec so that the source formula
can be compared against it (refinement for claim C1). -/
def spec_formula_score (missed_payments credit_utilization credit_score
    debt_to_income_ratio : ℚ) : ℚ :=
  (missed_payments / 6.0) * 0.30
    + credit_utilization * 0.25
    + ((850 - credit_score) / 850.0) * 0.25
    + debt_to_income_ratio * 0.20

/-- The three tier labels of the pd.cut call. -/
inductive RiskTier where
  | LOW
  | MEDIUM
  | HIGH
  deriving Repr, DecidableEq

/-- Riskiness rank of a tier: LOW < MEDIUM < HIGH. -/
def RiskTier.rank : RiskTier → Nat
  | .LOW => 0
  | .MEDIUM => 1
  | .HIGH => 2

/-- The tier assignment of calculate_risk_score
(src/eda_analysis.py lines 77-81):
pd.cut(score, bins=[0, 0.30, 0.70, 1.0], labels=[LOW, MEDIUM, HIGH]).
With the default right=True this labels the half-open intervals
(0, 0.30], (0.30, 0.70] and (0.70, 1.0]; a score equal to the first
edge or outside every interval gets NaN, modelled as none. -/
def assign_risk_tier (score : ℚ) : Option RiskTier :=
  if 0 < score ∧ score ≤ 0.30 then some RiskTier.LOW
  else if 0.30 < score ∧ score ≤ 0.70 then some RiskTier.MEDIUM
  else if 0.70 < score ∧ score ≤ 1.0 then some RiskTier.HIGH
  else none

/-- A row after calculate_risk_score has run: the unchanged raw row
plus the two derived columns it writes. -/
structure ScoredRecord where
  raw : CustomerRecord
  risk_score : ℚ
  risk_tier : Option RiskTier
  deriving Repr, DecidableEq

/-- The whole of calculate_risk_score as a batch transform: the two
vectorized assignments of lines 69-81 act on each row independently,
in order, leaving every input column as it was and writing only the
two derived columns. -/
def score_and_tier_batch (rs : List CustomerRecord) : List ScoredRecord :=
  rs.map fun r =>
    { raw := r
      risk_score := compute_risk_score r
      risk_tier := assign_risk_tier (compute_risk_score r) }

/-- A raw row in which any numeric column may be missing (pandas NaN,
modelled as none). -/
structure RawCustomerRecord where
  customer_id : Nat
  income : Option ℚ
  credit_score : Option ℚ
  credit_utilization : Option ℚ
  missed_payments : Option ℚ
  debt_to_income_ratio : Option ℚ
  deriving Repr, DecidableEq

/-- The score arithmetic of lines 69-74 under pandas NaN propagation:
every arithmetic operation on NaN yields NaN, so the score is NaN
exactly when one of the four columns the formula reads is NaN.  The
formula reads missed_payments, credit_utilization, credit_score and
debt_to_income_ratio; it does not read income. -/
def compute_risk_score_nullable (r : RawCustomerRecord) : Option ℚ :=
  r.missed_payments.bind fun mp =>
  r.credit_utilization.bind fun cu =>
  r.credit_score.bind fun cs =>
  r.debt_to_income_ratio.map fun dti =>
    (mp / 6.0) * 0.30 + cu * 0.25 + ((850 - cs) / 850.0) * 0.25 + dti * 0.20

/-- pd.cut maps a NaN score to a NaN tier. -/
def assign_risk_tier_nullable (score : Option ℚ) : Option RiskTier :=
  score.bind assign_risk_tier

/-- The batch transform over rows with possibly-missing columns:
each row gets its (possibly NaN) score and tier, independently. -/
def score_and_tier_batch_nullable (rs : List RawCustomerRecord) :
    List (RawCustomerRecord × Option ℚ × Option RiskTier) :=
  rs.map fun r =>
    (r, compute_risk_score_nullable r,
      assign_risk_tier_nullable (compute_risk_score_nullable r))

/-- C1: compute_risk_score returns exactly the four-term weighted sum
of the spec formula — (missed_payments / 6.0) * 0.30 +
credit_utilization * 0.25 + ((850 - credit_score) / 850.0) * 0.25 +
debt_to_income_ratio * 0.20 — for every record; as a pure function it
is deterministic and has no side effect. -/
theorem c1_compute_risk_score_matches_spec_formula (r : CustomerRecord) :
    compute_risk_score r =
      spec_formula_score r.missed_payments r.credit_utilization
        r.credit_score r.debt_to_income_ratio := by
  rfl

/-- C2: assign_risk_tier maps (0, 0.30] to LOW, (0.30, 0.70] to
MEDIUM and (0.70, 1.0] to HIGH; in particular 0.30 maps to LOW, 0.70
to MEDIUM and 0.700001 to HIGH. -/
theorem c2_assign_risk_tier_intervals :
    (∀ s : ℚ, 0 < s → s ≤ 0.30 → assign_risk_tier s = some RiskTier.LOW) ∧
    (∀ s : ℚ, 0.30 < s → s ≤ 0.70 → assign_risk_tier s = some RiskTier.MEDIUM) ∧
    (∀ s : ℚ, 0.70 < s → s ≤ 1.0 → assign_risk_tier s = some RiskTier.HIGH) ∧
    assign_risk_tier 0.30 = some RiskTier.LOW ∧
    assign_risk_tier 0.70 = some RiskTier.MEDIUM ∧
    assign_risk_tier 0.700001 = some RiskTier.HIGH := by
  refine ⟨?_, ?_, ?_, ?_, ?_, ?_⟩
  · intro s h1 h2
    simp only [assign_risk_tier, if_pos (And.intro h1 h2)]
  · intro s h1 h2
    have hn : ¬(0 < s ∧ s ≤ (0.30 : ℚ)) := by
      rintro ⟨-, hle⟩; exact absurd h1 (not_lt.mpr hle)
    simp only [assign_risk_tier, if_neg hn, if_pos (And.intro h1 h2)]
  · intro s h1 h2
    have h03 : (0.30 : ℚ) < s := lt_trans (by norm_num) h1
    have hn1 : ¬(0 < s ∧ s ≤ (0.30 : ℚ)) := by
      rintro ⟨-, hle⟩; exact absurd h03 (not_lt.mpr hle)
    have hn2 : ¬((0.30 : ℚ) < s ∧ s ≤ (0.70 : ℚ)) := by
      rintro ⟨-, hle⟩; exact absurd h1 (not_lt.mpr hle)
    simp only [assign_risk_tier, if_neg hn1, if_neg hn2,
      if_pos (And.intro h1 h2)]
  · norm_num [assign_risk_tier]
  · norm_num [assign_risk_tier]
  · norm_num [assign_risk_tier]

/-- Witness for C2: the first interval clause applied at the concrete
score 0.2. -/
theorem c2_witness : assign_risk_tier 0.2 = some RiskTier.LOW :=
  c2_assign_risk_tier_intervals.1 0.2 (by norm_num) (by norm_num)

/-- C3: a score outside every bin gets no tier: a score of exactly 0
gets NaN (the leftmost bin edge is exclusive), and a score above 1.0
is also left unclassified (none), not an error and not HIGH. -/
theorem c3_out_of_bins_unclassified :
    assign_risk_tier 0 = none ∧
    (∀ s : ℚ, 1 < s → assign_risk_tier s = none) := by
  constructor
  · norm_num [assign_risk_tier]
  · intro s hs
    have hn1 : ¬(0 < s ∧ s ≤ (0.30 : ℚ)) := by
      rintro ⟨-, hle⟩; norm_num at hle; linarith
    have hn2 : ¬((0.30 : ℚ) < s ∧ s ≤ (0.70 : ℚ)) := by
      rintro ⟨-, hle⟩; norm_num at hle; linarith
    have hn3 : ¬((0.70 : ℚ) < s ∧ s ≤ (1.0 : ℚ)) := by
      rintro ⟨-, hle⟩; norm_num at hle; linarith
    simp only [assign_risk_tier, if_neg hn1, if_neg hn2, if_neg hn3]

/-- Witness for C3: the above-one clause applied at the concrete
score 2, together with the closed zero clause. -/
theorem c3_witness :
    assign_risk_tier 2 = none ∧ assign_risk_tier 0 = none :=
  ⟨c3_out_of_bins_unclassified.2 2 (by norm_num),
    c3_out_of_bins_unclassified.1⟩

/-- C4: for records with missed_payments in [0,6], credit_score in
[300,850], credit_utilization and debt_to_income_ratio in [0,1], the
risk score lies in [0, 1] inclusive. -/
theorem c4_score_in_unit_interval (r : CustomerRecord)
    (hmp0 : 0 ≤ r.missed_payments) (hmp6 : r.missed_payments ≤ 6)
    (hcs3 : 300 ≤ r.credit_score) (hcs8 : r.credit_score ≤ 850)
    (hcu0 : 0 ≤ r.credit_utilization) (hcu1 : r.credit_utilization ≤ 1)
    (hd0 : 0 ≤ r.debt_to_income_ratio) (hd1 : r.debt_to_income_ratio ≤ 1) :
    0 ≤ compute_risk_score r ∧ compute_risk_score r ≤ 1 := by
  unfold compute_risk_score
  constructor <;> [skip; skip] <;> norm_num <;> linarith

/-- Witness for C4: the bound at a concrete in-range record. -/
theorem c4_witness :
    0 ≤ compute_risk_score
        { customer_id := 7, income := 40000, credit_score := 600,
          credit_utilization := 0.5, missed_payments := 2,
          debt_to_income_ratio := 0.4 } ∧
    compute_risk_score
        { customer_id := 7, income := 40000, credit_score := 600,
          credit_utilization := 0.5, missed_payments := 2,
          debt_to_income_ratio := 0.4 } ≤ 1 :=
  c4_score_in_unit_interval _ (by norm_num) (by norm_num) (by norm_num)
    (by norm_num) (by norm_num) (by norm_num) (by norm_num) (by norm_num)

/-- If a score is assigned a tier, the score lies in the interval of
that tier. -/
theorem assign_risk_tier_some_bounds (s : ℚ) (t : RiskTier)
    (h : assign_risk_tier s = some t) :
    (t = RiskTier.LOW → 0 < s ∧ s ≤ 0.30) ∧
    (t = RiskTier.MEDIUM → 0.30 < s ∧ s ≤ 0.70) ∧
    (t = RiskTier.HIGH → 0.70 < s ∧ s ≤ 1.0) := by
  unfold assign_risk_tier at h
  split_ifs at h with h1 h2 h3
  · injection h with h; subst h
    exact ⟨fun _ => h1, fun hc => absurd hc (by decide),
      fun hc => absurd hc (by decide)⟩
  · injection h with h; subst h
    exact ⟨fun hc => absurd hc (by decide), fun _ => h2,
      fun hc => absurd hc (by decide)⟩
  · injection h with h; subst h
    exact ⟨fun hc => absurd hc (by decide),
      fun hc => absurd hc (by decide), fun _ => h3⟩

/-- C5: tier assignment is monotone non-decreasing in the score:
whenever two scores both receive a tier and the first score is not
larger, the first tier does not outrank the second under
LOW < MEDIUM < HIGH. -/
theorem c5_assign_risk_tier_monotone (a b : ℚ) (hab : a ≤ b)
    (ta tb : RiskTier)
    (ha : assign_risk_tier a = some ta)
    (hb : assign_risk_tier b = some tb) :
    ta.rank ≤ tb.rank := by
  have Ha := assign_risk_tier_some_bounds a ta ha
  have Hb := assign_risk_tier_some_bounds b tb hb
  cases ta <;> cases tb
  · decide
  · decide
  · decide
  · exfalso
    obtain ⟨h1, -⟩ := Ha.2.1 rfl
    obtain ⟨-, h2⟩ := Hb.1 rfl
    linarith
  · decide
  · decide
  · exfalso
    obtain ⟨h1, -⟩ := Ha.2.2 rfl
    obtain ⟨-, h2⟩ := Hb.1 rfl
    linarith
  · exfalso
    obtain ⟨h1, -⟩ := Ha.2.2 rfl
    obtain ⟨-, h2⟩ := Hb.2.1 rfl
    linarith
  · decide

/-- Witness for C5: the monotonicity theorem applied at the concrete
scores 0.2 and 0.5. -/
theorem c5_witness : RiskTier.rank RiskTier.LOW ≤ RiskTier.rank RiskTier.MEDIUM :=
  c5_assign_risk_tier_monotone 0.2 0.5 (by norm_num) RiskTier.LOW
    RiskTier.MEDIUM (by norm_num [assign_risk_tier])
    (by norm_num [assign_risk_tier])

/-- C6: scoring is idempotent on the raw columns: re-running the
batch transform on an already-scored table, ignoring the previously
derived columns, reproduces exactly the same derived values. -/
theorem c6_batch_idempotent (rs : List CustomerRecord) :
    score_and_tier_batch ((score_and_tier_batch rs).map ScoredRecord.raw) =
      score_and_tier_batch rs := by
  simp [score_and_tier_batch, List.map_map, Function.comp]

/-- C7: the batch transform scores every row independently from that
row alone, preserves row count and order, leaves every input column
of each row unchanged, and writes only the two derived columns. -/
theorem c7_batch_rowwise_frame (rs : List CustomerRecord) (i : Nat) :
    (score_and_tier_batch rs).length = rs.length ∧
    ((score_and_tier_batch rs)[i]?).map ScoredRecord.raw = rs[i]? ∧
    ((score_and_tier_batch rs)[i]?).map ScoredRecord.risk_score =
      (rs[i]?).map compute_risk_score ∧
    ((score_and_tier_batch rs)[i]?).map ScoredRecord.risk_tier =
      (rs[i]?).map fun r => assign_risk_tier (compute_risk_score r) := by
  refine ⟨by simp [score_and_tier_batch], ?_, ?_, ?_⟩ <;>
    simp only [score_and_tier_batch, List.getElem?_map] <;>
    cases rs[i]? <;> rfl

/-- C8: for the record with missed_payments=6, credit_utilization=1,
credit_score=300, debt_to_income_ratio=1, the score equals
0.30 + 0.25 + ((850-300)/850)*0.25 + 0.20 = 31/34 (0.9118 to four
decimal places) and the tier is HIGH. -/
theorem c8_worst_in_range_record :
    compute_risk_score
        { customer_id := 1, income := 50000, credit_score := 300,
          credit_utilization := 1.0, missed_payments := 6,
          debt_to_income_ratio := 1.0 } =
      0.30 + 0.25 + ((850 - 300) / 850) * 0.25 + 0.20 ∧
    compute_risk_score
        { customer_id := 1, income := 50000, credit_score := 300,
          credit_utilization := 1.0, missed_payments := 6,
          debt_to_income_ratio := 1.0 } = 31 / 34 ∧
    |compute_risk_score
        { customer_id := 1, income := 50000, credit_score := 300,
          credit_utilization := 1.0, missed_payments := 6,
          debt_to_income_ratio := 1.0 } - 0.9118| < 0.00005 ∧
    assign_risk_tier (compute_risk_score
        { customer_id := 1, income := 50000, credit_score := 300,
          credit_utilization := 1.0, missed_payments := 6,
          debt_to_income_ratio := 1.0 }) = some RiskTier.HIGH := by
  refine ⟨by norm_num [compute_risk_score], by norm_num [compute_risk_score],
    ?_, by norm_num [compute_risk_score, assign_risk_tier]⟩
  rw [abs_sub_lt_iff]
  norm_num [compute_risk_score]

/-- C9: for missed_payments=10 with the other terms zero
(credit_utilization=0, credit_score=850, debt_to_income_ratio=0), the
missed-payments term is not clamped: the score is (10/6)*0.30 = 0.50
and the tier is MEDIUM. -/
theorem c9_missed_payments_not_clamped :
    compute_risk_score
        { customer_id := 2, income := 0, credit_score := 850,
          credit_utilization := 0, missed_payments := 10,
          debt_to_income_ratio := 0 } = (10 / 6) * 0.30 ∧
    compute_risk_score
        { customer_id := 2, income := 0, credit_score := 850,
          credit_utilization := 0, missed_payments := 10,
          debt_to_income_ratio := 0 } = 0.50 ∧
    assign_risk_tier (compute_risk_score
        { customer_id := 2, income := 0, credit_score := 850,
          credit_utilization := 0, missed_payments := 10,
          debt_to_income_ratio := 0 }) = some RiskTier.MEDIUM := by
  refine ⟨by norm_num [compute_risk_score], by norm_num [compute_risk_score],
    by norm_num [compute_risk_score, assign_risk_tier]⟩

/-- Counterexample to C10 as stated: income is one of the five raw
numeric fields of the data model, yet a record whose income is
missing still gets a well-defined risk_score (here 0.1) and a
non-null risk_tier (LOW), because the formula never reads income. -/
theorem c10_counterexample :
    (RawCustomerRecord.income
        { customer_id := 3, income := none, credit_score := some 850,
          credit_utilization := some 0, missed_payments := some 0,
          debt_to_income_ratio := some 0.5 }) = none ∧
    compute_risk_score_nullable
        { customer_id := 3, income := none, credit_score := some 850,
          credit_utilization := some 0, missed_payments := some 0,
          debt_to_income_ratio := some 0.5 } = some 0.1 ∧
    assign_risk_tier_nullable (compute_risk_score_nullable
        { customer_id := 3, income := none, credit_score := some 850,
          credit_utilization := some 0, missed_payments := some 0,
          debt_to_income_ratio := some 0.5 }) = some RiskTier.LOW := by
  refine ⟨rfl, by norm_num [compute_risk_score_nullable], ?_⟩
  norm_num [compute_risk_score_nullable, assign_risk_tier_nullable,
    assign_risk_tier]

/-- C10 (amended): if any of the four raw numeric fields the formula
reads (missed_payments, credit_utilization, credit_score,
debt_to_income_ratio) is missing, that record gets a NaN risk_score
and a null risk_tier, with no exception; and each row of the batch is
derived from that row alone, so the other rows are unaffected. -/
theorem c10_missing_field_nulls_that_row_only :
    (∀ r : RawCustomerRecord,
      (r.missed_payments = none ∨ r.credit_utilization = none ∨
        r.credit_score = none ∨ r.debt_to_income_ratio = none) →
      compute_risk_score_nullable r = none ∧
      assign_risk_tier_nullable (compute_risk_score_nullable r) = none) ∧
    (∀ (rs : List RawCustomerRecord) (i : Nat),
      (score_and_tier_batch_nullable rs)[i]? =
        (rs[i]?).map fun x =>
          (x, compute_risk_score_nullable x,
            assign_risk_tier_nullable (compute_risk_score_nullable x))) := by
  constructor
  · intro r h
    have hs : compute_risk_score_nullable r = none := by
      unfold compute_risk_score_nullable
      rcases h with h | h | h | h
      · rw [h]; rfl
      · rw [h]; cases r.missed_payments <;> rfl
      · rw [h]; cases r.missed_payments <;> cases r.credit_utilization <;> rfl
      · rw [h]; cases r.missed_payments <;> cases r.credit_utilization <;>
          cases r.credit_score <;> rfl
    exact ⟨hs, by rw [hs]; rfl⟩
  · intro rs i
    simp only [score_and_tier_batch_nullable, List.getElem?_map]

/-- Witness for C10 (amended): the per-row clause applied to a
concrete record whose missed_payments is missing. -/
theorem c10_amended_witness :
    compute_risk_score_nullable
        { customer_id := 4, income := some 100, credit_score := some 700,
          credit_utilization := some 0.5, missed_payments := none,
          debt_to_income_ratio := some 0.5 } = none ∧
    assign_risk_tier_nullable (compute_risk_score_nullable
        { customer_id := 4, income := some 100, credit_score := some 700,
          credit_utilization := some 0.5, missed_payments := none,
          debt_to_income_ratio := some 0.5 }) = none :=
  c10_missing_field_nulls_that_row_only.1 _ (Or.inl rfl)
